import Mathlib

/-! # SimpleShape.cpp: rotating triangle demo

A shallow embedding of `SimpleShape.cpp`.  The program talks to GLFW, OpenGL and
the C++ error stream; every such call is recorded, in program order, in a trace
of `Call` events carried by the `World`, and every value the outside world hands
back (success flags, object names, key state, clock) is an explicit input.

Floating-point values are represented by their exact meaning (`FP`); the
implicit `double` to `float` conversion and the `f`-suffixed literals go through
IEEE-754 binary32 round-to-nearest-even (`roundBinary32`).
-/

namespace SimpleShape

/-! ## Compile-time target and shader sources -/

/-- Compile-time target: `browser` when `__EMSCRIPTEN__` is defined, `desktop` otherwise. -/
inductive Target where
  | desktop
  | browser
  deriving DecidableEq, Repr

/-- Raw string literal `vertexShaderSourceCore` (lines 18-26). -/
def vertexShaderSourceCore : String :=
  "\nlayout (location = 0) in vec3 aPos;\nuniform float rotation;\nvoid main() \x7b\n    mat2 rotationMatrix = mat2(cos(rotation), -sin(rotation), sin(rotation), cos(rotation));\n    vec2 rotatedPos = rotationMatrix * aPos.xy;\n    gl_Position = vec4(rotatedPos, aPos.z, 1.0);\n\x7d\n"

/-- Raw string literal `fragmentShaderSourceCore` (lines 29-34). -/
def fragmentShaderSourceCore : String :=
  "\nout vec4 FragColor;\nvoid main() \x7b\n    FragColor = vec4(1.0, 1.0, 0.0, 1.0);  // Yellow color\n\x7d\n"

/-- Global `vertexShaderSource` (line 39 under `__EMSCRIPTEN__`, line 42 otherwise). -/
def vertexShaderSource : Target → String
  | .browser => "#version 300 es\nprecision mediump float;\n" ++ vertexShaderSourceCore
  | .desktop => "#version 330 core\n" ++ vertexShaderSourceCore

/-- Global `fragmentShaderSource` (line 40 under `__EMSCRIPTEN__`, line 43 otherwise). -/
def fragmentShaderSource : Target → String
  | .browser => "#version 300 es\nprecision mediump float;\n" ++ fragmentShaderSourceCore
  | .desktop => "#version 330 core\n" ++ fragmentShaderSourceCore

/-- The header the specification names for each target (used only to state the claim). -/
def specHeader : Target → String
  | .desktop => "#version 330 core\n"
  | .browser => "#version 300 es\nprecision mediump float;\n"

/-! ## Floating-point values -/

/-- The meaning of an IEEE-754 value (`float` or `double`): not-a-number, an infinity, or
the exact rational number a finite value denotes (the two zeros are not told apart). -/
inductive FP where
  | nan
  | negInf
  | finite (v : ℚ)
  | posInf
  deriving DecidableEq, Repr

/-- IEEE comparison `a <= b`: false as soon as one side is not-a-number. -/
def FP.le : FP → FP → Prop
  | .nan, _ => False
  | _, .nan => False
  | .negInf, _ => True
  | .finite _, .negInf => False
  | .finite a, .finite b => a ≤ b
  | .finite _, .posInf => True
  | .posInf, .posInf => True
  | .posInf, _ => False

/-- IEEE comparison `a < b`: false as soon as one side is not-a-number. -/
def FP.lt : FP → FP → Prop
  | .nan, _ => False
  | _, .nan => False
  | .negInf, .negInf => False
  | .negInf, _ => True
  | .finite _, .negInf => False
  | .finite a, .finite b => a < b
  | .finite _, .posInf => True
  | .posInf, _ => False

instance FP.decLe : (a b : FP) → Decidable (FP.le a b)
  | .nan, _ => isFalse (by simp [FP.le])
  | .negInf, .nan => isFalse (by simp [FP.le])
  | .finite _, .nan => isFalse (by simp [FP.le])
  | .posInf, .nan => isFalse (by simp [FP.le])
  | .negInf, .negInf => isTrue (by simp [FP.le])
  | .negInf, .finite _ => isTrue (by simp [FP.le])
  | .negInf, .posInf => isTrue (by simp [FP.le])
  | .finite _, .negInf => isFalse (by simp [FP.le])
  | .finite a, .finite b => if h : a ≤ b then isTrue (by simpa [FP.le] using h)
      else isFalse (by simpa [FP.le] using h)
  | .finite _, .posInf => isTrue (by simp [FP.le])
  | .posInf, .posInf => isTrue (by simp [FP.le])
  | .posInf, .negInf => isFalse (by simp [FP.le])
  | .posInf, .finite _ => isFalse (by simp [FP.le])

/-- Nearest integer to `q`, a tie going to the even neighbour. -/
def roundHalfEven (q : ℚ) : ℤ :=
  if q - ⌊q⌋ < 1 / 2 then ⌊q⌋
  else if 1 / 2 < q - ⌊q⌋ then ⌊q⌋ + 1
  else if ⌊q⌋ % 2 = 0 then ⌊q⌋ else ⌊q⌋ + 1

/-- Exponent of the unit in the last place of binary32 at magnitude `x`: 24 significant
bits, the exponent of the leading bit never below `-126` (subnormals share `2 ^ (-149)`). -/
def ulpExp (x : ℚ) : ℤ := max (Int.log 2 x) (-126) - 23

/-- Magnitude `x` (`0 ≤ x`) rounded to the binary32 grid, before the range check. -/
def roundMag (x : ℚ) : ℚ := roundHalfEven (x / 2 ^ ulpExp x) * 2 ^ ulpExp x

/-- Largest finite binary32 value, `(2 ^ 24 - 1) * 2 ^ 104`. -/
def FLT_MAX : ℚ := (2 ^ 24 - 1) * 2 ^ 104

/-- IEEE-754 binary32 round-to-nearest-even of an exact value; a result beyond `FLT_MAX`
is the infinity of that sign. -/
def roundBinary32 (x : ℚ) : FP :=
  if x < 0 then
    if FLT_MAX < roundMag (-x) then .negInf else .finite (-roundMag (-x))
  else
    if FLT_MAX < roundMag x then .posInf else .finite (roundMag x)

/-- Implicit conversion `double` to `float` (`float timeValue = glfwGetTime();`). -/
def floatOfDouble : FP → FP
  | .nan => .nan
  | .negInf => .negInf
  | .posInf => .posInf
  | .finite v => roundBinary32 v

/-- A literal with suffix `f`: the binary32 value nearest to the decimal written. -/
def floatLit (q : ℚ) : FP := roundBinary32 q

/-- Host constant `sizeof(float)`: GL_FLOAT data is 4 bytes wide. -/
def sizeofFloat : Nat := 4

/-! ## Calls into GLFW, OpenGL and the error stream -/

/-- Symbolic constants of the GL and GLFW headers that the program names. -/
inductive Const where
  | GLFW_CONTEXT_VERSION_MAJOR
  | GLFW_CONTEXT_VERSION_MINOR
  | GLFW_OPENGL_PROFILE
  | GLFW_OPENGL_CORE_PROFILE
  | GLFW_KEY_ESCAPE
  | GL_VERTEX_SHADER
  | GL_FRAGMENT_SHADER
  | GL_COMPILE_STATUS
  | GL_ARRAY_BUFFER
  | GL_STATIC_DRAW
  | GL_FLOAT
  | GL_COLOR_BUFFER_BIT
  | GL_TRIANGLES
  deriving DecidableEq, Repr

/-- Second argument of `glfwWindowHint`: a plain number or a named constant. -/
inductive HintValue where
  | num (n : Int)
  | named (c : Const)
  deriving DecidableEq, Repr

/-- What `glfwGetKey` reports for a key. -/
inductive KeyAction where
  | GLFW_RELEASE
  | GLFW_PRESS
  deriving DecidableEq, Repr

/-- One call the program makes, with the arguments it passes; `cerr` is one
statement writing to `std::cerr` with the text written (`std::endl` is a newline).
Left out are the arguments that never vary: the one window handle, the callbacks
(`framebuffer_size_callback`, `main_loop`), the null pointers of `glfwCreateWindow`,
`glShaderSource` and `glGetShaderInfoLog`, and the addresses results are written to. -/
inductive Call where
  | glfwInit
  | glfwWindowHint (hint : Const) (value : HintValue)
  | glfwCreateWindow (width height : Int) (title : String)
  | glfwTerminate
  | glfwMakeContextCurrent
  | gladLoadGL
  | glfwSetFramebufferSizeCallback
  | emscripten_set_main_loop (fps simulate_infinite_loop : Int)
  | glfwWindowShouldClose
  | glfwGetKey (key : Const)
  | glfwSetWindowShouldClose (value : Bool)
  | glfwPollEvents
  | glfwSwapBuffers
  | glfwGetTime
  | cerr (text : String)
  | glViewport (x y width height : Int)
  | glCreateShader (type : Const)
  | glShaderSource (shader count : Nat) (source : String)
  | glCompileShader (shader : Nat)
  | glGetShaderiv (shader : Nat) (pname : Const)
  | glGetShaderInfoLog (shader bufSize : Nat)
  | glCreateProgram
  | glAttachShader (program shader : Nat)
  | glLinkProgram (program : Nat)
  | glDeleteShader (shader : Nat)
  | glGenVertexArrays (n : Nat)
  | glGenBuffers (n : Nat)
  | glBindVertexArray (array : Nat)
  | glBindBuffer (target : Const) (buffer : Nat)
  | glBufferData (target : Const) (size : Nat) (data : List FP) (usage : Const)
  | glVertexAttribPointer (index size : Nat) (type : Const) (normalized : Bool)
      (stride offset : Nat)
  | glEnableVertexAttribArray (index : Nat)
  | glClearColor (red green blue alpha : FP)
  | glClear (mask : Const)
  | glUseProgram (program : Nat)
  | glGetUniformLocation (program : Nat) (name : String)
  | glUniform1f (location : Int) (v0 : FP)
  | glDrawArrays (mode : Const) (first count : Int)
  deriving DecidableEq, Repr

/-- Whether the call is a graphics (OpenGL, `gl...`) call. -/
def Call.isGraphics : Call → Bool
  | .glViewport .. => true
  | .glCreateShader .. => true
  | .glShaderSource .. => true
  | .glCompileShader .. => true
  | .glGetShaderiv .. => true
  | .glGetShaderInfoLog .. => true
  | .glCreateProgram => true
  | .glAttachShader .. => true
  | .glLinkProgram .. => true
  | .glDeleteShader .. => true
  | .glGenVertexArrays .. => true
  | .glGenBuffers .. => true
  | .glBindVertexArray .. => true
  | .glBindBuffer .. => true
  | .glBufferData .. => true
  | .glVertexAttribPointer .. => true
  | .glEnableVertexAttribArray .. => true
  | .glClearColor .. => true
  | .glClear .. => true
  | .glUseProgram .. => true
  | .glGetUniformLocation .. => true
  | .glUniform1f .. => true
  | .glDrawArrays .. => true
  | _ => false

/-- Text of a write to the error stream, nothing for any other call. -/
def Call.errorText : Call → Option String
  | .cerr text => some text
  | _ => none

/-! ## Program state and inputs -/

/-- The globals `shaderProgram` and `VAO`, the state of the window and of the GL context
that the program reads or sets, and the trace of all calls made so far. -/
structure World where
  trace : List Call
  shaderProgram : Nat
  VAO : Nat
  shouldClose : Bool
  viewport : Int × Int × Int × Int
  currentProgram : Nat
  boundVertexArray : Nat
  boundArrayBuffer : Nat
  deriving DecidableEq, Repr

/-- State at entry of `main`: zero-initialised globals, nothing bound, empty trace. -/
def World.start : World where
  trace := []
  shaderProgram := 0
  VAO := 0
  shouldClose := false
  viewport := (0, 0, 0, 0)
  currentProgram := 0
  boundVertexArray := 0
  boundArrayBuffer := 0

/-- Everything the libraries hand back during start-up. -/
structure Env where
  glfwInitOk : Bool
  windowOk : Bool
  gladOk : Bool
  vertexShader : Nat
  vertexSuccess : Int
  vertexInfoLog : String
  fragmentShader : Nat
  fragmentSuccess : Int
  fragmentInfoLog : String
  program : Nat
  linkOk : Bool
  vao : Nat
  vbo : Nat
  deriving Repr

/-- Everything the libraries hand back during one tick: the state of the escape key, the
clock (a `double`), the location of the uniform, and the events `glfwPollEvents`
dispatches (framebuffer sizes in order, and whether the user asked to close the window). -/
structure TickInput where
  escapeKey : KeyAction
  time : FP
  uniformLocation : Int
  resizes : List (Int × Int)
  closeRequested : Bool
  deriving Repr

/-- How `main` ends: it returns a status, or (browser) control stays with the host
scheduler, `emscripten_set_main_loop` being called with `simulate_infinite_loop = 1`. -/
inductive Outcome where
  | returned (status : Int)
  | hostLoop
  deriving DecidableEq, Repr

/-- Record one call at the end of the trace. -/
def emit (c : Call) (w : World) : World := { w with trace := w.trace ++ [c] }

/-! ## Library calls that change the state the program relies on -/

/-- `glViewport`: records the call and the rectangle asked for. -/
def glViewport (x y width height : Int) (w : World) : World :=
  { emit (.glViewport x y width height) w with viewport := (x, y, width, height) }

/-- `glUseProgram`: records the call and the program made current. -/
def glUseProgram (program : Nat) (w : World) : World :=
  { emit (.glUseProgram program) w with currentProgram := program }

/-- `glBindVertexArray`: records the call and the vertex array bound. -/
def glBindVertexArray (array : Nat) (w : World) : World :=
  { emit (.glBindVertexArray array) w with boundVertexArray := array }

/-- `glBindBuffer(GL_ARRAY_BUFFER, buffer)`: records the call and the buffer bound. -/
def glBindBuffer (buffer : Nat) (w : World) : World :=
  { emit (.glBindBuffer .GL_ARRAY_BUFFER buffer) w with boundArrayBuffer := buffer }

/-- `glfwSetWindowShouldClose`: records the call and sets the close flag of the window. -/
def glfwSetWindowShouldClose (value : Bool) (w : World) : World :=
  { emit (.glfwSetWindowShouldClose value) w with shouldClose := value }

/-! ## The functions of `SimpleShape.cpp` -/

/-- Function `checkShaderCompile` (lines 122-130); `success` and `infoLog` are what
`glGetShaderiv` and `glGetShaderInfoLog` write back for this shader. -/
def checkShaderCompile (shader : Nat) (success : Int) (infoLog : String) (w : World) : World :=
  let w := emit (.glGetShaderiv shader .GL_COMPILE_STATUS) w
  if success = 0 then
    let w := emit (.glGetShaderInfoLog shader 512) w
    emit (.cerr ("ERROR::SHADER::COMPILATION_FAILED\n" ++ infoLog ++ "\n")) w
  else
    w

/-- Function `framebuffer_size_callback` (lines 132-134). -/
def framebuffer_size_callback (width height : Int) (w : World) : World :=
  glViewport 0 0 width height w

/-- Function `processInput` (lines 136-139). -/
def processInput (inp : TickInput) (w : World) : World :=
  let w := emit (.glfwGetKey .GLFW_KEY_ESCAPE) w
  if inp.escapeKey = .GLFW_PRESS then glfwSetWindowShouldClose true w else w

/-- The decimal literals of `float vertices[]` (lines 162-174), in order. -/
def vertexLiterals : List ℚ :=
  [ 0.0,   0.575,  0.0,
   -0.25,  0.145,  0.0,
    0.25,  0.145,  0.0,

   -0.25,  0.145,  0.0,
   -0.5,  -0.285,  0.0,
    0.0,  -0.285,  0.0,

    0.25,  0.145,  0.0,
    0.0,  -0.285,  0.0,
    0.5,  -0.285,  0.0 ]

/-- The array `float vertices[]` of `init`: each literal as a binary32 value. -/
def vertices : List FP := vertexLiterals.map floatLit

/-- The C++ expression `sizeof(vertices)`. -/
def sizeofVertices : Nat := vertices.length * sizeofFloat

/-- Function `init` (lines 141-191). -/
def init (t : Target) (env : Env) (w : World) : World :=
  let w := emit (.glCreateShader .GL_VERTEX_SHADER) w
  let vertexShader := env.vertexShader
  let w := emit (.glShaderSource vertexShader 1 (vertexShaderSource t)) w
  let w := emit (.glCompileShader vertexShader) w
  let w := checkShaderCompile vertexShader env.vertexSuccess env.vertexInfoLog w
  let w := emit (.glCreateShader .GL_FRAGMENT_SHADER) w
  let fragmentShader := env.fragmentShader
  let w := emit (.glShaderSource fragmentShader 1 (fragmentShaderSource t)) w
  let w := emit (.glCompileShader fragmentShader) w
  let w := checkShaderCompile fragmentShader env.fragmentSuccess env.fragmentInfoLog w
  let w := { emit .glCreateProgram w with shaderProgram := env.program }
  let w := emit (.glAttachShader w.shaderProgram vertexShader) w
  let w := emit (.glAttachShader w.shaderProgram fragmentShader) w
  let w := emit (.glLinkProgram w.shaderProgram) w
  let w := emit (.glDeleteShader vertexShader) w
  let w := emit (.glDeleteShader fragmentShader) w
  let w := { emit (.glGenVertexArrays 1) w with VAO := env.vao }
  let w := emit (.glGenBuffers 1) w
  let VBO := env.vbo
  let w := glBindVertexArray w.VAO w
  let w := glBindBuffer VBO w
  let w := emit (.glBufferData .GL_ARRAY_BUFFER sizeofVertices vertices .GL_STATIC_DRAW) w
  let w := emit (.glVertexAttribPointer 0 3 .GL_FLOAT false (3 * sizeofFloat) 0) w
  let w := emit (.glEnableVertexAttribArray 0) w
  let w := glBindBuffer 0 w
  glBindVertexArray 0 w

/-- The value `rotationAngle` that `render` computes (lines 202-203) from what
`glfwGetTime` returns. -/
def rotationAngle (time : FP) : FP :=
  let timeValue : FP := floatOfDouble time
  timeValue

/-- Function `render` (lines 193-212). -/
def render (inp : TickInput) (w : World) : World :=
  let w := emit (.glClearColor (floatLit 0.0) (floatLit 0.0) (floatLit 0.0) (floatLit 1.0)) w
  let w := emit (.glClear .GL_COLOR_BUFFER_BIT) w
  let w := glUseProgram w.shaderProgram w
  let w := emit .glfwGetTime w
  let rotationAngle : FP := rotationAngle inp.time
  let w := emit (.glGetUniformLocation w.shaderProgram "rotation") w
  let vertexColorLocation : Int := inp.uniformLocation
  let w := emit (.glUniform1f vertexColorLocation rotationAngle) w
  let w := glBindVertexArray w.VAO w
  emit (.glDrawArrays .GL_TRIANGLES 0 9) w

/-- `glfwPollEvents`: records the call, runs the registered size callback for each
framebuffer size event and raises the close flag when the user asked to close. -/
def glfwPollEvents (inp : TickInput) (w : World) : World :=
  let w := emit .glfwPollEvents w
  let w := inp.resizes.foldl (fun w wh => framebuffer_size_callback wh.1 wh.2 w) w
  if inp.closeRequested then { w with shouldClose := true } else w

/-- The closure `loop` that `main` builds (lines 100-105). -/
def loop (inp : TickInput) (w : World) : World :=
  let w := processInput inp w
  let w := render inp w
  let w := glfwPollEvents inp w
  emit .glfwSwapBuffers w

/-- Function `main_loop` (line 60). -/
def main_loop (inp : TickInput) (w : World) : World := loop inp w

/-- The desktop loop `while (!glfwWindowShouldClose(window)) main_loop();` (lines
112-114), one `TickInput` per iteration; `none` when the inputs supplied run out while
the loop is still going. -/
def nativeLoop : List TickInput → World → Option World
  | [], w =>
    if w.shouldClose then some (emit .glfwWindowShouldClose w) else none
  | inp :: rest, w =>
    if w.shouldClose then some (emit .glfwWindowShouldClose w)
    else nativeLoop rest (main_loop inp (emit .glfwWindowShouldClose w))

/-- The host scheduler of the browser target calling `main_loop` once per frame, for the
frames whose inputs are supplied. -/
def hostLoop (inputs : List TickInput) (w : World) : World :=
  inputs.foldl (fun w inp => main_loop inp w) w

/-- Function `main` (lines 62-120) for target `t`. -/
def main (t : Target) (env : Env) (inputs : List TickInput) : Option (World × Outcome) :=
  let w := emit .glfwInit World.start
  if !env.glfwInitOk then
    some (emit (.cerr "Failed to initialize GLFW\n") w, .returned (-1))
  else
    let w := emit (.glfwWindowHint .GLFW_CONTEXT_VERSION_MAJOR (.num 3)) w
    let w := emit (.glfwWindowHint .GLFW_CONTEXT_VERSION_MINOR (.num 3)) w
    let w := emit (.glfwWindowHint .GLFW_OPENGL_PROFILE (.named .GLFW_OPENGL_CORE_PROFILE)) w
    let w := emit (.glfwCreateWindow 800 600 "OpenGL Rotating Triangle") w
    if !env.windowOk then
      let w := emit (.cerr "Failed to create GLFW window\n") w
      let w := emit .glfwTerminate w
      some (w, .returned (-1))
    else
      let w := emit .glfwMakeContextCurrent w
      let w := if t = .desktop then emit .gladLoadGL w else w
      if t = .desktop ∧ env.gladOk = false then
        some (emit (.cerr "Failed to initialize GLAD\n") w, .returned (-1))
      else
        let w := glViewport 0 0 800 600 w
        let w := emit .glfwSetFramebufferSizeCallback w
        let w := init t env w
        match t with
        | .browser =>
          some (hostLoop inputs (emit (.emscripten_set_main_loop 0 1) w), .hostLoop)
        | .desktop =>
          match nativeLoop inputs w with
          | none => none
          | some w => some (emit .glfwTerminate w, .returned 0)

/-! ## Vocabulary for stating the properties -/

/-- Calls of one `checkShaderCompile`. -/
def checkCalls (shader : Nat) (success : Int) (infoLog : String) : List Call :=
  .glGetShaderiv shader .GL_COMPILE_STATUS ::
    (if success = 0 then
      [.glGetShaderInfoLog shader 512,
       .cerr ("ERROR::SHADER::COMPILATION_FAILED\n" ++ infoLog ++ "\n")]
    else [])

/-- The calls made between state `before` and the later state `after`. -/
def newCalls (before after : World) : List Call := after.trace.drop before.trace.length

/-- Whether the call is a `glBufferData`. -/
def Call.isBufferData : Call → Bool
  | .glBufferData .. => true
  | _ => false

/-- Whether the call is a `glVertexAttribPointer`. -/
def Call.isAttribPointer : Call → Bool
  | .glVertexAttribPointer .. => true
  | _ => false

/-- Everything of the state except the trace of calls. -/
def World.clearTrace (w : World) : World := { w with trace := [] }

/-- Whether the call only reports a failed compilation (fetching the log, writing it). -/
def Call.isFailureReport : Call → Bool
  | .glGetShaderInfoLog .. => true
  | .cerr .. => true
  | _ => false

/-- The calls of `processInput`. -/
def processInputCalls (inp : TickInput) : List Call :=
  .glfwGetKey .GLFW_KEY_ESCAPE ::
    (if inp.escapeKey = .GLFW_PRESS then [.glfwSetWindowShouldClose true] else [])

/-- The calls of `render` in a state with the given globals. -/
def renderCalls (inp : TickInput) (shaderProgram VAO : Nat) : List Call :=
  [ .glClearColor (.finite 0) (.finite 0) (.finite 0) (.finite 1),
    .glClear .GL_COLOR_BUFFER_BIT,
    .glUseProgram shaderProgram,
    .glfwGetTime,
    .glGetUniformLocation shaderProgram "rotation",
    .glUniform1f inp.uniformLocation (rotationAngle inp.time),
    .glBindVertexArray VAO,
    .glDrawArrays .GL_TRIANGLES 0 9 ]

/-- The calls of event polling: the poll and the viewport calls of the size callback. -/
def pollCalls (inp : TickInput) : List Call :=
  .glfwPollEvents :: inp.resizes.map (fun wh => Call.glViewport 0 0 wh.1 wh.2)

/-- The iterations of the desktop loop for the given inputs, none of them ending it: the
test of the close flag, then `main_loop`. -/
def runTicks (inputs : List TickInput) (w : World) : World :=
  inputs.foldl (fun w inp => main_loop inp (emit .glfwWindowShouldClose w)) w

/-- The state in which `main` arrives at its loop when start-up succeeds: the calls of
lines 64-98 made, `init` included. -/
def atLoopEntry (t : Target) (env : Env) : World :=
  let w := emit .glfwInit World.start
  let w := emit (.glfwWindowHint .GLFW_CONTEXT_VERSION_MAJOR (.num 3)) w
  let w := emit (.glfwWindowHint .GLFW_CONTEXT_VERSION_MINOR (.num 3)) w
  let w := emit (.glfwWindowHint .GLFW_OPENGL_PROFILE (.named .GLFW_OPENGL_CORE_PROFILE)) w
  let w := emit (.glfwCreateWindow 800 600 "OpenGL Rotating Triangle") w
  let w := emit .glfwMakeContextCurrent w
  let w := if t = .desktop then emit .gladLoadGL w else w
  let w := glViewport 0 0 800 600 w
  let w := emit .glfwSetFramebufferSizeCallback w
  init t env w

/-- Sample start-up in which everything succeeds except the vertex shader compilation. -/
def sampleEnv : Env where
  glfwInitOk := true
  windowOk := true
  gladOk := true
  vertexShader := 1
  vertexSuccess := 0
  vertexInfoLog := "0:1: syntax error"
  fragmentShader := 2
  fragmentSuccess := 1
  fragmentInfoLog := ""
  program := 3
  linkOk := false
  vao := 1
  vbo := 1

/-- Sample tick input: escape not pressed, one resize event, no close request. -/
def sampleIdleTick : TickInput where
  escapeKey := .GLFW_RELEASE
  time := .finite 0.5
  uniformLocation := 0
  resizes := [(640, 480)]
  closeRequested := false

/-- Sample tick input: escape pressed, uniform not found. -/
def sampleEscapeTick : TickInput where
  escapeKey := .GLFW_PRESS
  time := .finite 1.5
  uniformLocation := -1
  resizes := []
  closeRequested := false

/-- Vertex `i` as the attribute layout of `init` reads it from the literal table: 3
floats per vertex, stride 3 floats, offset 0. -/
def vertexAt (i : Nat) : ℚ × ℚ × ℚ :=
  (vertexLiterals.getD (3 * i) 0, vertexLiterals.getD (3 * i + 1) 0,
    vertexLiterals.getD (3 * i + 2) 0)

/-- Triangle `k` of a `GL_TRIANGLES` draw: vertices `3k`, `3k+1`, `3k+2`. -/
def triangleAt (k : Nat) : List (ℚ × ℚ × ℚ) :=
  [vertexAt (3 * k), vertexAt (3 * k + 1), vertexAt (3 * k + 2)]

/-- Midpoint of two points of the plane `z = 0`. -/
def midpoint3 (p q : ℚ × ℚ × ℚ) : ℚ × ℚ × ℚ :=
  ((p.1 + q.1) / 2, (p.2.1 + q.2.1) / 2, 0)

/-- Area of the triangle `p q r`, from the x and y coordinates. -/
def triangleArea (p q r : ℚ × ℚ × ℚ) : ℚ :=
  |(q.1 - p.1) * (r.2.1 - p.2.1) - (r.1 - p.1) * (q.2.1 - p.2.1)| / 2

/-- Outer corner `A = (0, 0.575)`. -/
def cornerA : ℚ × ℚ × ℚ := (0, 0.575, 0)

/-- Outer corner `B = (-0.5, -0.285)`. -/
def cornerB : ℚ × ℚ × ℚ := (-0.5, -0.285, 0)

/-- Outer corner `C = (0.5, -0.285)`. -/
def cornerC : ℚ × ℚ × ℚ := (0.5, -0.285, 0)

/-- The values that the calls `glUniform1f` in a list of calls upload. -/
def uploadedValues (cs : List Call) : List FP :=
  cs.filterMap (fun c => match c with
    | .glUniform1f _ v0 => some v0
    | _ => none)

/-! # Theorems -/

/-! ## Shader sources -/

theorem data_take_append (h b : String) : (h ++ b).data.take h.length = h.data := by
  rw [String.data_append]
  exact List.take_left _ _

theorem data_drop_append (h b : String) : (h ++ b).data.drop h.length = b.data := by
  rw [String.data_append]
  exact List.drop_left _ _

theorem vertexShaderSource_eq (t : Target) :
    vertexShaderSource t = specHeader t ++ vertexShaderSourceCore := by
  cases t <;> rfl

theorem fragmentShaderSource_eq (t : Target) :
    fragmentShaderSource t = specHeader t ++ fragmentShaderSourceCore := by
  cases t <;> rfl

/-- C1: for each target, both shader sources are the target header (`#version 330 core`
line on desktop, `#version 300 es` line and precision line on the browser target) followed
by the shared body verbatim: the first characters are the header, what remains after the
header is the body, and nothing else is in the string. -/
theorem shader_sources_header_then_body (t : Target) :
    specHeader .desktop = "#version 330 core\n"
    ∧ specHeader .browser = "#version 300 es\nprecision mediump float;\n"
    ∧ (vertexShaderSource t).data.take (specHeader t).length = (specHeader t).data
    ∧ (vertexShaderSource t).data.drop (specHeader t).length = vertexShaderSourceCore.data
    ∧ (fragmentShaderSource t).data.take (specHeader t).length = (specHeader t).data
    ∧ (fragmentShaderSource t).data.drop (specHeader t).length = fragmentShaderSourceCore.data
    ∧ (vertexShaderSource t).length = (specHeader t).length + vertexShaderSourceCore.length
    ∧ (fragmentShaderSource t).length
        = (specHeader t).length + fragmentShaderSourceCore.length := by
  rw [vertexShaderSource_eq, fragmentShaderSource_eq]
  exact ⟨rfl, rfl, data_take_append _ _, data_drop_append _ _, data_take_append _ _,
    data_drop_append _ _, String.length_append _ _, String.length_append _ _⟩

/-! ## Literals and the vertex table -/

theorem roundBinary32_zero : roundBinary32 0 = .finite 0 := by
  norm_num [roundBinary32, roundMag, roundHalfEven, FLT_MAX]

theorem roundBinary32_one : roundBinary32 1 = .finite 1 := by
  have h : ulpExp 1 = -23 := by simp [ulpExp]
  have h2 : ((1:ℚ) / 2 ^ (-23 : ℤ)) = ((2^23 : ℤ) : ℚ) := by norm_num
  simp only [roundBinary32, roundMag, h, h2, roundHalfEven, Int.floor_intCast]
  norm_num [FLT_MAX]

theorem floatLit_zero : floatLit 0.0 = .finite 0 := by
  have h : (0.0 : ℚ) = 0 := by norm_num
  rw [h]; exact roundBinary32_zero

theorem floatLit_one : floatLit 1.0 = .finite 1 := by
  have h : (1.0 : ℚ) = 1 := by norm_num
  rw [h]; exact roundBinary32_one

theorem vertices_length : vertices.length = 27 := by
  simp [vertices, vertexLiterals]

theorem sizeofVertices_eq : sizeofVertices = 108 := by
  simp [sizeofVertices, vertices_length, sizeofFloat]

theorem vertexAt_values :
    (List.range 9).map vertexAt
      = [ cornerA, midpoint3 cornerA cornerB, midpoint3 cornerA cornerC,
          midpoint3 cornerA cornerB, cornerB, midpoint3 cornerB cornerC,
          midpoint3 cornerA cornerC, midpoint3 cornerB cornerC, cornerC ] := by
  simp [List.range, List.range.loop, vertexAt, vertexLiterals, cornerA, cornerB, cornerC, midpoint3]
  norm_num

/-- C10: reading the literals as exact decimals, with outer corners `A = (0, 0.575)`,
`B = (-0.5, -0.285)`, `C = (0.5, -0.285)`: the side midpoints are `(-0.25, 0.145)`,
`(0.25, 0.145)` and `(0, -0.285)`; the three drawn triangles are `A` with the midpoints
of `AB` and `AC`, `B` with the midpoints of `AB` and `BC`, and `C` with the midpoints of
`AC` and `BC`; every z coordinate is 0; each triangle has a quarter of the (nonzero) area
of `ABC`; and the 9 table entries take exactly 6 distinct positions. -/
theorem vertices_are_corner_triangles :
    midpoint3 cornerA cornerB = (-0.25, 0.145, 0)
    ∧ midpoint3 cornerA cornerC = (0.25, 0.145, 0)
    ∧ midpoint3 cornerB cornerC = (0, -0.285, 0)
    ∧ triangleAt 0 = [cornerA, midpoint3 cornerA cornerB, midpoint3 cornerA cornerC]
    ∧ triangleAt 1 = [midpoint3 cornerA cornerB, cornerB, midpoint3 cornerB cornerC]
    ∧ triangleAt 2 = [midpoint3 cornerA cornerC, midpoint3 cornerB cornerC, cornerC]
    ∧ (List.range 9).map (fun i => (vertexAt i).2.2) = List.replicate 9 0
    ∧ triangleArea cornerA cornerB cornerC = 0.43
    ∧ triangleArea cornerA (midpoint3 cornerA cornerB) (midpoint3 cornerA cornerC)
      = triangleArea cornerA cornerB cornerC / 4
    ∧ triangleArea (midpoint3 cornerA cornerB) cornerB (midpoint3 cornerB cornerC)
      = triangleArea cornerA cornerB cornerC / 4
    ∧ triangleArea (midpoint3 cornerA cornerC) (midpoint3 cornerB cornerC) cornerC
      = triangleArea cornerA cornerB cornerC / 4
    ∧ vertexLiterals.length = 3 * 9
    ∧ ((List.range 9).map vertexAt).length = 9
    ∧ [cornerA, midpoint3 cornerA cornerB, midpoint3 cornerA cornerC, cornerB,
        midpoint3 cornerB cornerC, cornerC].Nodup
    ∧ (∀ v, v ∈ (List.range 9).map vertexAt ↔
        v ∈ [cornerA, midpoint3 cornerA cornerB, midpoint3 cornerA cornerC, cornerB,
          midpoint3 cornerB cornerC, cornerC]) := by
  have hv := vertexAt_values
  have ht : ∀ k, k < 3 → triangleAt k
      = (((List.range 9).map vertexAt).drop (3 * k)).take 3 := by
    intro k hk
    interval_cases k <;> simp [triangleAt, List.range, List.range.loop]
  refine ⟨?_, ?_, ?_, ?_, ?_, ?_, ?_, ?_, ?_, ?_, ?_, ?_, ?_, ?_, ?_⟩
  · norm_num [midpoint3, cornerA, cornerB]
  · norm_num [midpoint3, cornerA, cornerC]
  · norm_num [midpoint3, cornerB, cornerC]
  · rw [ht 0 (by norm_num), hv]; rfl
  · rw [ht 1 (by norm_num), hv]; rfl
  · rw [ht 2 (by norm_num), hv]; rfl
  · norm_num [List.range, List.range.loop, vertexAt, vertexLiterals, List.replicate]
  · norm_num [triangleArea, cornerA, cornerB, cornerC, abs_of_nonneg, abs_of_nonpos]
  · norm_num [triangleArea, midpoint3, cornerA, cornerB, cornerC, abs_of_nonneg, abs_of_nonpos]
  · norm_num [triangleArea, midpoint3, cornerA, cornerB, cornerC, abs_of_nonneg, abs_of_nonpos]
  · norm_num [triangleArea, midpoint3, cornerA, cornerB, cornerC, abs_of_nonneg, abs_of_nonpos]
  · simp [vertexLiterals]
  · simp
  · norm_num [midpoint3, cornerA, cornerB, cornerC]
  · intro v
    rw [hv]
    simp only [List.mem_cons, List.mem_singleton, List.not_mem_nil, or_false]
    tauto

/-! ## Traces of `init` and `render` -/

theorem newCalls_of_trace {w w1 : World} {cs : List Call} (h : w1.trace = w.trace ++ cs) :
    newCalls w w1 = cs := by
  simp [newCalls, h]

theorem checkShaderCompile_trace (shader : Nat) (success : Int) (infoLog : String) (w : World) :
    (checkShaderCompile shader success infoLog w).trace
      = w.trace ++ checkCalls shader success infoLog := by
  unfold checkShaderCompile checkCalls
  by_cases h : success = 0 <;> simp [h, emit]

theorem render_trace (inp : TickInput) (w : World) :
    (render inp w).trace = w.trace ++
      [ .glClearColor (.finite 0) (.finite 0) (.finite 0) (.finite 1),
        .glClear .GL_COLOR_BUFFER_BIT,
        .glUseProgram w.shaderProgram,
        .glfwGetTime,
        .glGetUniformLocation w.shaderProgram "rotation",
        .glUniform1f inp.uniformLocation (rotationAngle inp.time),
        .glBindVertexArray w.VAO,
        .glDrawArrays .GL_TRIANGLES 0 9 ] := by
  simp [render, emit, glUseProgram, glBindVertexArray, floatLit_zero, floatLit_one]

theorem init_trace (t : Target) (env : Env) (w : World) :
    (init t env w).trace = w.trace ++
      ([ .glCreateShader .GL_VERTEX_SHADER,
         .glShaderSource env.vertexShader 1 (vertexShaderSource t),
         .glCompileShader env.vertexShader ]
       ++ checkCalls env.vertexShader env.vertexSuccess env.vertexInfoLog
       ++ [ .glCreateShader .GL_FRAGMENT_SHADER,
         .glShaderSource env.fragmentShader 1 (fragmentShaderSource t),
         .glCompileShader env.fragmentShader ]
       ++ checkCalls env.fragmentShader env.fragmentSuccess env.fragmentInfoLog
       ++ [ .glCreateProgram,
         .glAttachShader env.program env.vertexShader,
         .glAttachShader env.program env.fragmentShader,
         .glLinkProgram env.program,
         .glDeleteShader env.vertexShader,
         .glDeleteShader env.fragmentShader,
         .glGenVertexArrays 1,
         .glGenBuffers 1,
         .glBindVertexArray env.vao,
         .glBindBuffer .GL_ARRAY_BUFFER env.vbo,
         .glBufferData .GL_ARRAY_BUFFER 108 vertices .GL_STATIC_DRAW,
         .glVertexAttribPointer 0 3 .GL_FLOAT false 12 0,
         .glEnableVertexAttribArray 0,
         .glBindBuffer .GL_ARRAY_BUFFER 0,
         .glBindVertexArray 0 ]) := by
  simp [init, emit, glBindVertexArray, glBindBuffer, checkShaderCompile_trace,
    sizeofVertices_eq, sizeofFloat]

theorem init_globals (t : Target) (env : Env) (w : World) :
    (init t env w).shaderProgram = env.program ∧ (init t env w).VAO = env.vao
    ∧ (init t env w).shouldClose = w.shouldClose ∧ (init t env w).viewport = w.viewport
    ∧ (init t env w).boundVertexArray = 0 ∧ (init t env w).boundArrayBuffer = 0
    ∧ (init t env w).currentProgram = w.currentProgram := by
  simp only [init, checkShaderCompile]
  split_ifs <;> simp [emit, glBindVertexArray, glBindBuffer]

/-- C2: the one buffer upload of `init` carries the 27 floats of the literal table, entry
for entry (9 vertices of 3 floats), with byte size 108 = 9 * 3 * 4, which is 9 times the
attribute stride of 12 bytes that the one `glVertexAttribPointer` call declares. -/
theorem init_uploads_vertex_table (t : Target) (env : Env) (w : World) :
    (newCalls w (init t env w)).filter Call.isBufferData
      = [ .glBufferData .GL_ARRAY_BUFFER 108
            ([ 0.0, 0.575, 0.0, -0.25, 0.145, 0.0, 0.25, 0.145, 0.0,
               -0.25, 0.145, 0.0, -0.5, -0.285, 0.0, 0.0, -0.285, 0.0,
               0.25, 0.145, 0.0, 0.0, -0.285, 0.0, 0.5, -0.285, 0.0 ].map floatLit)
            .GL_STATIC_DRAW ]
    ∧ (newCalls w (init t env w)).filter Call.isAttribPointer
      = [ .glVertexAttribPointer 0 3 .GL_FLOAT false 12 0 ]
    ∧ vertices.length = 27
    ∧ vertices.length = 9 * 3
    ∧ sizeofVertices = 9 * 3 * 4
    ∧ sizeofVertices = 108
    ∧ 3 * sizeofFloat = 12
    ∧ sizeofVertices = 9 * (3 * sizeofFloat) := by
  rw [newCalls_of_trace (init_trace t env w)]
  refine ⟨?_, ?_, vertices_length, vertices_length, sizeofVertices_eq, sizeofVertices_eq,
    rfl, sizeofVertices_eq⟩
  · by_cases hv : env.vertexSuccess = 0 <;> by_cases hf : env.fragmentSuccess = 0 <;>
      simp [checkCalls, hv, hf, Call.isBufferData, vertices, vertexLiterals]
  · by_cases hv : env.vertexSuccess = 0 <;> by_cases hf : env.fragmentSuccess = 0 <;>
      simp [checkCalls, hv, hf, Call.isAttribPointer]

/-- C3: whatever the state and whatever location the uniform lookup returns (`-1`
included), the graphics calls of one `render` are exactly: clear colour (0,0,0,1), clear of
the colour buffer, use of `shaderProgram`, lookup of `rotation` on `shaderProgram`, upload
of the rotation angle to the location returned, bind of `VAO`, and a draw of
`GL_TRIANGLES` from vertex 0 with count 9; the only other call of `render` is the clock
query `glfwGetTime`; 9 is the number of vertices `init` uploaded (27 floats, 3 per
vertex). -/
theorem render_graphics_calls (inp : TickInput) (w : World) :
    (newCalls w (render inp w)).filter Call.isGraphics
      = [ .glClearColor (.finite 0) (.finite 0) (.finite 0) (.finite 1),
          .glClear .GL_COLOR_BUFFER_BIT,
          .glUseProgram w.shaderProgram,
          .glGetUniformLocation w.shaderProgram "rotation",
          .glUniform1f inp.uniformLocation (rotationAngle inp.time),
          .glBindVertexArray w.VAO,
          .glDrawArrays .GL_TRIANGLES 0 9 ]
    ∧ newCalls w (render inp w)
      = [ .glClearColor (.finite 0) (.finite 0) (.finite 0) (.finite 1),
          .glClear .GL_COLOR_BUFFER_BIT,
          .glUseProgram w.shaderProgram,
          .glfwGetTime,
          .glGetUniformLocation w.shaderProgram "rotation",
          .glUniform1f inp.uniformLocation (rotationAngle inp.time),
          .glBindVertexArray w.VAO,
          .glDrawArrays .GL_TRIANGLES 0 9 ]
    ∧ (render inp w).trace.take w.trace.length = w.trace
    ∧ vertices.length = 3 * 9
    ∧ (9 : Int) = ((vertices.length / 3 : Nat) : Int) := by
  rw [newCalls_of_trace (render_trace inp w), render_trace]
  refine ⟨?_, rfl, ?_, vertices_length, ?_⟩
  · simp [Call.isGraphics]
  · simp
  · simp [vertices_length]

/-! ## One tick -/

theorem processInput_trace (inp : TickInput) (w : World) :
    (processInput inp w).trace = w.trace ++ processInputCalls inp := by
  unfold processInput processInputCalls
  by_cases h : inp.escapeKey = .GLFW_PRESS <;> simp [h, emit, glfwSetWindowShouldClose]

theorem processInput_globals (inp : TickInput) (w : World) :
    (processInput inp w).shaderProgram = w.shaderProgram ∧ (processInput inp w).VAO = w.VAO := by
  unfold processInput
  by_cases h : inp.escapeKey = .GLFW_PRESS <;> simp [h, emit, glfwSetWindowShouldClose]

theorem processInput_not_pressed (inp : TickInput) (w : World)
    (h : inp.escapeKey ≠ .GLFW_PRESS) :
    processInput inp w = emit (.glfwGetKey .GLFW_KEY_ESCAPE) w := by
  simp [processInput, h]

theorem resizes_trace (rs : List (Int × Int)) (w : World) :
    (rs.foldl (fun w wh => framebuffer_size_callback wh.1 wh.2 w) w).trace
      = w.trace ++ rs.map (fun wh => Call.glViewport 0 0 wh.1 wh.2) := by
  induction rs generalizing w with
  | nil => simp
  | cons r rs ih =>
    rw [List.foldl_cons, ih]
    simp [framebuffer_size_callback, glViewport, emit]

theorem resizes_shouldClose (rs : List (Int × Int)) (w : World) :
    (rs.foldl (fun w wh => framebuffer_size_callback wh.1 wh.2 w) w).shouldClose
      = w.shouldClose := by
  induction rs generalizing w with
  | nil => simp
  | cons r rs ih =>
    rw [List.foldl_cons, ih]
    simp [framebuffer_size_callback, glViewport, emit]

theorem glfwPollEvents_trace (inp : TickInput) (w : World) :
    (glfwPollEvents inp w).trace = w.trace ++ pollCalls inp := by
  unfold glfwPollEvents pollCalls
  by_cases h : inp.closeRequested <;> simp [h, resizes_trace, emit]

theorem glfwPollEvents_shouldClose (inp : TickInput) (w : World) :
    (glfwPollEvents inp w).shouldClose = (w.shouldClose || inp.closeRequested) := by
  unfold glfwPollEvents
  by_cases h : inp.closeRequested <;> simp [h, resizes_shouldClose, emit]

theorem render_shouldClose (inp : TickInput) (w : World) :
    (render inp w).shouldClose = w.shouldClose := by
  simp [render, emit, glUseProgram, glBindVertexArray]

theorem main_loop_trace (inp : TickInput) (w : World) :
    (main_loop inp w).trace = w.trace ++ (processInputCalls inp
      ++ renderCalls inp w.shaderProgram w.VAO ++ pollCalls inp ++ [.glfwSwapBuffers]) := by
  simp [main_loop, loop, emit, glfwPollEvents_trace, render_trace, processInput_trace,
    processInput_globals, renderCalls]

theorem main_loop_shouldClose (inp : TickInput) (w : World) :
    (main_loop inp w).shouldClose
      = ((w.shouldClose || decide (inp.escapeKey = .GLFW_PRESS)) || inp.closeRequested) := by
  simp only [main_loop, loop, emit, glfwPollEvents_shouldClose, render_shouldClose]
  unfold processInput
  by_cases h : inp.escapeKey = .GLFW_PRESS <;> simp [h, emit, glfwSetWindowShouldClose]

theorem hostLoop_cons (inp : TickInput) (inputs : List TickInput) (w : World) :
    hostLoop (inp :: inputs) w = hostLoop inputs (main_loop inp w) := rfl

/-- C4: one tick (`main_loop`, that is the closure `loop`) makes, for every input and
state, the calls of `processInput`, then those of `render`, then those of event polling,
then the buffer swap, and nothing else; the desktop loop and the browser scheduler both
run exactly this `main_loop` per iteration, the tick that requests closing included. -/
theorem tick_four_steps_in_order (inp : TickInput) (w : World) (rest : List TickInput) :
    main_loop inp w
      = emit .glfwSwapBuffers (glfwPollEvents inp (render inp (processInput inp w)))
    ∧ newCalls w (main_loop inp w)
      = newCalls w (processInput inp w)
        ++ newCalls (processInput inp w) (render inp (processInput inp w))
        ++ newCalls (render inp (processInput inp w))
            (glfwPollEvents inp (render inp (processInput inp w)))
        ++ [.glfwSwapBuffers]
    ∧ newCalls w (processInput inp w)
      = .glfwGetKey .GLFW_KEY_ESCAPE ::
          (if inp.escapeKey = .GLFW_PRESS then [.glfwSetWindowShouldClose true] else [])
    ∧ newCalls (processInput inp w) (render inp (processInput inp w))
      = [ .glClearColor (.finite 0) (.finite 0) (.finite 0) (.finite 1),
          .glClear .GL_COLOR_BUFFER_BIT,
          .glUseProgram w.shaderProgram,
          .glfwGetTime,
          .glGetUniformLocation w.shaderProgram "rotation",
          .glUniform1f inp.uniformLocation (rotationAngle inp.time),
          .glBindVertexArray w.VAO,
          .glDrawArrays .GL_TRIANGLES 0 9 ]
    ∧ newCalls (render inp (processInput inp w))
        (glfwPollEvents inp (render inp (processInput inp w)))
      = .glfwPollEvents :: inp.resizes.map (fun wh => Call.glViewport 0 0 wh.1 wh.2)
    ∧ hostLoop (inp :: rest) w = hostLoop rest (main_loop inp w)
    ∧ nativeLoop (inp :: rest) { w with shouldClose := false }
      = nativeLoop rest
          (main_loop inp (emit .glfwWindowShouldClose { w with shouldClose := false })) := by
  have hp := newCalls_of_trace (processInput_trace inp w)
  have hr := newCalls_of_trace (render_trace inp (processInput inp w))
  have he := newCalls_of_trace (glfwPollEvents_trace inp (render inp (processInput inp w)))
  refine ⟨rfl, ?_, hp, ?_, he, rfl, ?_⟩
  · rw [hp, hr, he, newCalls_of_trace (main_loop_trace inp w)]
    simp [renderCalls, processInput_globals]
  · rw [hr]; simp [processInput_globals]
  · simp [nativeLoop]

/-! ## `main`: start-up and the loop -/

theorem main_browser_ok (env : Env) (inputs : List TickInput)
    (h1 : env.glfwInitOk = true) (h2 : env.windowOk = true) :
    main .browser env inputs
      = some (hostLoop inputs
          (emit (.emscripten_set_main_loop 0 1) (atLoopEntry .browser env)), .hostLoop) := by
  simp [main, atLoopEntry, h1, h2]

theorem main_desktop_ok (env : Env) (inputs : List TickInput)
    (h1 : env.glfwInitOk = true) (h2 : env.windowOk = true) (h3 : env.gladOk = true) :
    main .desktop env inputs
      = (nativeLoop inputs (atLoopEntry .desktop env)).map
          (fun w => (emit .glfwTerminate w, .returned 0)) := by
  simp only [main, atLoopEntry, h1, h2, h3]
  simp
  cases nativeLoop inputs _ <;> rfl

theorem atLoopEntry_shouldClose (t : Target) (env : Env) :
    (atLoopEntry t env).shouldClose = false := by
  unfold atLoopEntry
  simp only [(init_globals _ _ _).2.2.1]
  cases t <;> simp [emit, glViewport, World.start]

theorem atLoopEntry_errors (t : Target) (env : Env) :
    (atLoopEntry t env).trace.filterMap Call.errorText
      = (if env.vertexSuccess = 0
          then ["ERROR::SHADER::COMPILATION_FAILED\n" ++ env.vertexInfoLog ++ "\n"] else [])
        ++ (if env.fragmentSuccess = 0
          then ["ERROR::SHADER::COMPILATION_FAILED\n" ++ env.fragmentInfoLog ++ "\n"]
          else []) := by
  unfold atLoopEntry
  rw [init_trace]
  cases t <;> by_cases hv : env.vertexSuccess = 0 <;> by_cases hf : env.fragmentSuccess = 0 <;>
    simp [checkCalls, hv, hf, Call.errorText, emit, glViewport, World.start]

theorem runTicks_append_singleton (pre : List TickInput) (inp : TickInput) (w : World) :
    runTicks (pre ++ [inp]) w = main_loop inp (emit .glfwWindowShouldClose (runTicks pre w)) := by
  simp [runTicks, List.foldl_append]

theorem nativeLoop_running (pre : List TickInput) (tail : List TickInput) (w : World)
    (h : ∀ k, k < pre.length → (runTicks (pre.take k) w).shouldClose = false) :
    nativeLoop (pre ++ tail) w = nativeLoop tail (runTicks pre w) := by
  induction pre generalizing w with
  | nil => simp [runTicks]
  | cons p pre ih =>
    have h0 : w.shouldClose = false := by simpa [runTicks] using h 0 (by simp)
    have hstep : ∀ k, k < pre.length →
        (runTicks (pre.take k) (main_loop p (emit .glfwWindowShouldClose w))).shouldClose
          = false := by
      intro k hk
      have := h (k + 1) (by simpa using hk)
      simpa [runTicks] using this
    simp only [List.cons_append, nativeLoop, h0]
    simpa [runTicks] using ih _ hstep

theorem nativeLoop_closed (inputs : List TickInput) (w : World) (h : w.shouldClose = true) :
    nativeLoop inputs w = some (emit .glfwWindowShouldClose w) := by
  cases inputs <;> simp [nativeLoop, h]

/-- C5: a tick in which the escape key reads as pressed leaves the close flag set; when
such a tick runs as iteration N of the desktop loop (the flag was clear at every earlier
test and at the test before it), the loop ends at the very next test, no further tick
runs whatever inputs follow, and `main` goes on to `glfwTerminate` and returns 0; when
the key does not read as pressed, `processInput` only queries the key and leaves the
close flag (and all other state) as it was. -/
theorem escape_press_closes_and_ends_loop (env : Env) (pre rest : List TickInput)
    (inp : TickInput) (w : World) :
    (inp.escapeKey = .GLFW_PRESS → (main_loop inp w).shouldClose = true)
    ∧ (inp.escapeKey = .GLFW_PRESS →
        (∀ k, k ≤ pre.length → (runTicks (pre.take k) w).shouldClose = false) →
        nativeLoop (pre ++ inp :: rest) w
          = some (emit .glfwWindowShouldClose (runTicks (pre ++ [inp]) w)))
    ∧ (inp.escapeKey = .GLFW_PRESS →
        env.glfwInitOk = true → env.windowOk = true → env.gladOk = true →
        (∀ k, k ≤ pre.length →
          (runTicks (pre.take k) (atLoopEntry .desktop env)).shouldClose = false) →
        main .desktop env (pre ++ inp :: rest)
          = some (emit .glfwTerminate (emit .glfwWindowShouldClose
              (runTicks (pre ++ [inp]) (atLoopEntry .desktop env))), .returned 0))
    ∧ (inp.escapeKey ≠ .GLFW_PRESS →
        (processInput inp w).shouldClose = w.shouldClose
        ∧ processInput inp w = emit (.glfwGetKey .GLFW_KEY_ESCAPE) w) := by
  have key : ∀ w0 : World, inp.escapeKey = .GLFW_PRESS →
      (∀ k, k ≤ pre.length → (runTicks (pre.take k) w0).shouldClose = false) →
      nativeLoop (pre ++ inp :: rest) w0
        = some (emit .glfwWindowShouldClose (runTicks (pre ++ [inp]) w0)) := by
    intro w0 hp hrun
    have hlast : (runTicks pre w0).shouldClose = false := by
      simpa using hrun pre.length (le_refl _)
    rw [nativeLoop_running pre (inp :: rest) w0 (fun k hk => hrun k (le_of_lt hk))]
    simp only [nativeLoop, hlast]
    rw [runTicks_append_singleton]
    exact nativeLoop_closed _ _ (by simp [main_loop_shouldClose, hp])
  refine ⟨?_, key w, ?_, ?_⟩
  · intro hp
    simp [main_loop_shouldClose, hp]
  · intro hp h1 h2 h3 hrun
    rw [main_desktop_ok env _ h1 h2 h3]
    simp only [key _ hp hrun, Option.map]
  · intro hn
    rw [processInput_not_pressed inp w hn]
    exact ⟨rfl, rfl⟩

/-- One idle tick, then a tick with escape pressed, then inputs that are never used:
`main` on the desktop returns 0 right after the second tick. -/
theorem escape_press_closes_and_ends_loop_witness :
    (main_loop sampleEscapeTick World.start).shouldClose = true
    ∧ main .desktop sampleEnv ([sampleIdleTick] ++ sampleEscapeTick :: [sampleIdleTick])
      = some (emit .glfwTerminate (emit .glfwWindowShouldClose
          (runTicks ([sampleIdleTick] ++ [sampleEscapeTick]) (atLoopEntry .desktop sampleEnv))),
          .returned 0)
    ∧ (processInput sampleIdleTick World.start).shouldClose = World.start.shouldClose :=
  ⟨(escape_press_closes_and_ends_loop sampleEnv [sampleIdleTick] [sampleIdleTick]
      sampleEscapeTick World.start).1 rfl,
   (escape_press_closes_and_ends_loop sampleEnv [sampleIdleTick] [sampleIdleTick]
      sampleEscapeTick World.start).2.2.1 rfl rfl rfl rfl (by
        intro k hk
        have hk1 : k ≤ 1 := hk
        interval_cases k <;>
          simp [runTicks, main_loop_shouldClose, atLoopEntry_shouldClose, sampleIdleTick, emit]),
   ((escape_press_closes_and_ends_loop sampleEnv [] [] sampleIdleTick World.start).2.2.2
      (by decide)).1⟩

/-- C6: for all compile statuses of the two shaders (and whatever the link status),
`init` writes to the error stream exactly one message `ERROR::SHADER::COMPILATION_FAILED`,
newline, driver log, newline, per shader whose status is zero, in source order, and
nothing else; apart from fetching and writing those logs it makes the same calls in every
case (create, source, compile, status query, attach, link, delete, geometry upload); and
when start-up succeeded `main` goes on to its loop from the state `init` leaves, with
those messages the only text on the error stream and the close flag clear, so that the
first tick runs on either target. -/
theorem compile_failure_reported_not_fatal (t : Target) (env : Env) (w : World)
    (inp : TickInput) (inputs : List TickInput) :
    (newCalls w (init t env w)).filterMap Call.errorText
      = (if env.vertexSuccess = 0
          then ["ERROR::SHADER::COMPILATION_FAILED\n" ++ env.vertexInfoLog ++ "\n"] else [])
        ++ (if env.fragmentSuccess = 0
          then ["ERROR::SHADER::COMPILATION_FAILED\n" ++ env.fragmentInfoLog ++ "\n"]
          else [])
    ∧ (newCalls w (init t env w)).filter (fun c => !c.isFailureReport)
      = [ .glCreateShader .GL_VERTEX_SHADER,
          .glShaderSource env.vertexShader 1 (vertexShaderSource t),
          .glCompileShader env.vertexShader,
          .glGetShaderiv env.vertexShader .GL_COMPILE_STATUS,
          .glCreateShader .GL_FRAGMENT_SHADER,
          .glShaderSource env.fragmentShader 1 (fragmentShaderSource t),
          .glCompileShader env.fragmentShader,
          .glGetShaderiv env.fragmentShader .GL_COMPILE_STATUS,
          .glCreateProgram,
          .glAttachShader env.program env.vertexShader,
          .glAttachShader env.program env.fragmentShader,
          .glLinkProgram env.program,
          .glDeleteShader env.vertexShader,
          .glDeleteShader env.fragmentShader,
          .glGenVertexArrays 1,
          .glGenBuffers 1,
          .glBindVertexArray env.vao,
          .glBindBuffer .GL_ARRAY_BUFFER env.vbo,
          .glBufferData .GL_ARRAY_BUFFER 108 vertices .GL_STATIC_DRAW,
          .glVertexAttribPointer 0 3 .GL_FLOAT false 12 0,
          .glEnableVertexAttribArray 0,
          .glBindBuffer .GL_ARRAY_BUFFER 0,
          .glBindVertexArray 0 ]
    ∧ (env.glfwInitOk = true → env.windowOk = true →
        main .browser env inputs
          = some (hostLoop inputs
              (emit (.emscripten_set_main_loop 0 1) (atLoopEntry .browser env)), .hostLoop))
    ∧ (env.glfwInitOk = true → env.windowOk = true → env.gladOk = true →
        main .desktop env inputs
          = (nativeLoop inputs (atLoopEntry .desktop env)).map
              (fun w => (emit .glfwTerminate w, .returned 0)))
    ∧ (atLoopEntry t env).trace.filterMap Call.errorText
      = (if env.vertexSuccess = 0
          then ["ERROR::SHADER::COMPILATION_FAILED\n" ++ env.vertexInfoLog ++ "\n"] else [])
        ++ (if env.fragmentSuccess = 0
          then ["ERROR::SHADER::COMPILATION_FAILED\n" ++ env.fragmentInfoLog ++ "\n"]
          else [])
    ∧ (atLoopEntry t env).shouldClose = false
    ∧ nativeLoop (inp :: inputs) (atLoopEntry t env)
      = nativeLoop inputs (main_loop inp (emit .glfwWindowShouldClose (atLoopEntry t env)))
    ∧ hostLoop (inp :: inputs) (emit (.emscripten_set_main_loop 0 1) (atLoopEntry t env))
      = hostLoop inputs
          (main_loop inp (emit (.emscripten_set_main_loop 0 1) (atLoopEntry t env))) := by
  rw [newCalls_of_trace (init_trace t env w)]
  refine ⟨?_, ?_, main_browser_ok env inputs, main_desktop_ok env inputs,
    atLoopEntry_errors t env, atLoopEntry_shouldClose t env, ?_, hostLoop_cons _ _ _⟩
  · by_cases hv : env.vertexSuccess = 0 <;> by_cases hf : env.fragmentSuccess = 0 <;>
      simp [checkCalls, hv, hf, Call.errorText]
  · by_cases hv : env.vertexSuccess = 0 <;> by_cases hf : env.fragmentSuccess = 0 <;>
      simp [checkCalls, hv, hf, Call.isFailureReport]
  · simp [nativeLoop, atLoopEntry_shouldClose]

/-- With the vertex shader failing to compile, `main` reaches its loop on both targets. -/
theorem compile_failure_reported_not_fatal_witness :
    main .browser sampleEnv [sampleIdleTick]
      = some (hostLoop [sampleIdleTick]
          (emit (.emscripten_set_main_loop 0 1) (atLoopEntry .browser sampleEnv)), .hostLoop)
    ∧ main .desktop sampleEnv [sampleIdleTick]
      = (nativeLoop [sampleIdleTick] (atLoopEntry .desktop sampleEnv)).map
          (fun w => (emit .glfwTerminate w, .returned 0)) :=
  ⟨(compile_failure_reported_not_fatal .browser sampleEnv World.start sampleIdleTick
      [sampleIdleTick]).2.2.1 rfl rfl,
   (compile_failure_reported_not_fatal .desktop sampleEnv World.start sampleIdleTick
      [sampleIdleTick]).2.2.2.1 rfl rfl rfl⟩

/-- C7: when `glfwInit` fails, when window creation fails, and (desktop) when
`gladLoadGL` fails, `main` writes its message to the error stream and returns `-1` after
exactly the calls listed: no call of `init`, no tick, and no clean-up except
`glfwTerminate` after a failed window creation; the browser target never calls
`gladLoadGL` and goes on whatever it would report; `main` returns 0 only when none of the
three failed. -/
theorem fatal_startup_failures (t : Target) (env : Env) (inputs : List TickInput) :
    (env.glfwInitOk = false →
      main t env inputs = some
        ({ World.start with
            trace := [ .glfwInit, .cerr "Failed to initialize GLFW\n" ] },
         .returned (-1)))
    ∧ (env.glfwInitOk = true → env.windowOk = false →
      main t env inputs = some
        ({ World.start with
            trace := [ .glfwInit,
              .glfwWindowHint .GLFW_CONTEXT_VERSION_MAJOR (.num 3),
              .glfwWindowHint .GLFW_CONTEXT_VERSION_MINOR (.num 3),
              .glfwWindowHint .GLFW_OPENGL_PROFILE (.named .GLFW_OPENGL_CORE_PROFILE),
              .glfwCreateWindow 800 600 "OpenGL Rotating Triangle",
              .cerr "Failed to create GLFW window\n",
              .glfwTerminate ] },
         .returned (-1)))
    ∧ (env.glfwInitOk = true → env.windowOk = true → env.gladOk = false →
      main .desktop env inputs = some
        ({ World.start with
            trace := [ .glfwInit,
              .glfwWindowHint .GLFW_CONTEXT_VERSION_MAJOR (.num 3),
              .glfwWindowHint .GLFW_CONTEXT_VERSION_MINOR (.num 3),
              .glfwWindowHint .GLFW_OPENGL_PROFILE (.named .GLFW_OPENGL_CORE_PROFILE),
              .glfwCreateWindow 800 600 "OpenGL Rotating Triangle",
              .glfwMakeContextCurrent,
              .gladLoadGL,
              .cerr "Failed to initialize GLAD\n" ] },
         .returned (-1)))
    ∧ (env.glfwInitOk = true → env.windowOk = true →
      main .browser env inputs
        = some (hostLoop inputs
            (emit (.emscripten_set_main_loop 0 1) (atLoopEntry .browser env)), .hostLoop))
    ∧ (∀ w, main t env inputs = some (w, .returned 0) →
        env.glfwInitOk = true ∧ env.windowOk = true ∧ (t = .desktop → env.gladOk = true)) := by
  refine ⟨?_, ?_, ?_, main_browser_ok env inputs, ?_⟩
  · intro h1
    simp [main, h1, emit, World.start]
  · intro h1 h2
    simp [main, h1, h2, emit, World.start]
  · intro h1 h2 h3
    simp [main, h1, h2, h3, emit, World.start]
  · intro w hw
    by_cases h1 : env.glfwInitOk = true
    · by_cases h2 : env.windowOk = true
      · refine ⟨h1, h2, ?_⟩
        intro ht
        by_contra h3
        subst ht
        simp [main, h1, h2, h3] at hw
      · simp [main, h1, h2] at hw
    · simp [main, h1] at hw

/-- A failing `glfwInit` (browser) and a failing `gladLoadGL` (desktop) end `main` with
status `-1` before `init`. -/
theorem fatal_startup_failures_witness :
    main .browser { sampleEnv with glfwInitOk := false } []
      = some ({ World.start with
          trace := [ .glfwInit, .cerr "Failed to initialize GLFW\n" ] }, .returned (-1))
    ∧ main .desktop { sampleEnv with gladOk := false } [sampleIdleTick]
      = some ({ World.start with
          trace := [ .glfwInit,
            .glfwWindowHint .GLFW_CONTEXT_VERSION_MAJOR (.num 3),
            .glfwWindowHint .GLFW_CONTEXT_VERSION_MINOR (.num 3),
            .glfwWindowHint .GLFW_OPENGL_PROFILE (.named .GLFW_OPENGL_CORE_PROFILE),
            .glfwCreateWindow 800 600 "OpenGL Rotating Triangle",
            .glfwMakeContextCurrent,
            .gladLoadGL,
            .cerr "Failed to initialize GLAD\n" ] }, .returned (-1)) :=
  ⟨(fatal_startup_failures .browser { sampleEnv with glfwInitOk := false } []).1 rfl,
   (fatal_startup_failures .desktop { sampleEnv with gladOk := false }
      [sampleIdleTick]).2.2.1 rfl rfl rfl⟩

/-! ## The resize callback -/

/-- C8: for all `(width, height)` the size callback makes the one call
`glViewport(0, 0, width, height)`, after which the viewport is `(0, 0, width, height)` and
every other part of the state (globals, close flag, bindings) is as before; calling it
again with the same size changes no state, and after two calls the state is that of the
last call alone. -/
theorem framebuffer_size_callback_sets_viewport (width height width0 height0 : Int)
    (w : World) :
    framebuffer_size_callback width height w
      = { w with trace := w.trace ++ [.glViewport 0 0 width height],
                 viewport := (0, 0, width, height) }
    ∧ (framebuffer_size_callback width height w).viewport = (0, 0, width, height)
    ∧ (framebuffer_size_callback width height w).clearTrace
      = { w.clearTrace with viewport := (0, 0, width, height) }
    ∧ (framebuffer_size_callback width height
        (framebuffer_size_callback width height w)).clearTrace
      = (framebuffer_size_callback width height w).clearTrace
    ∧ (framebuffer_size_callback width height
        (framebuffer_size_callback width0 height0 w)).clearTrace
      = (framebuffer_size_callback width height w).clearTrace := by
  simp [framebuffer_size_callback, glViewport, emit, World.clearTrace]

/-! ## The rotation angle -/

theorem floor_le_roundHalfEven (q : ℚ) : ⌊q⌋ ≤ roundHalfEven q := by
  unfold roundHalfEven
  split_ifs <;> omega

theorem roundHalfEven_le_floor_add_one (q : ℚ) : roundHalfEven q ≤ ⌊q⌋ + 1 := by
  unfold roundHalfEven
  split_ifs <;> omega

theorem roundHalfEven_intCast (n : ℤ) : roundHalfEven (n : ℚ) = n := by
  simp [roundHalfEven]

theorem roundHalfEven_mono {a b : ℚ} (h : a ≤ b) : roundHalfEven a ≤ roundHalfEven b := by
  have hf : ⌊a⌋ ≤ ⌊b⌋ := Int.floor_mono h
  rcases lt_or_eq_of_le hf with hlt | heq
  · calc roundHalfEven a ≤ ⌊a⌋ + 1 := roundHalfEven_le_floor_add_one a
      _ ≤ ⌊b⌋ := hlt
      _ ≤ roundHalfEven b := floor_le_roundHalfEven b
  · unfold roundHalfEven
    rw [heq]
    split_ifs <;> first | omega | (exfalso; linarith)

theorem roundHalfEven_nonneg {q : ℚ} (h : 0 ≤ q) : 0 ≤ roundHalfEven q := by
  have := roundHalfEven_mono h
  simpa [roundHalfEven] using this

theorem two_zpow_pos (e : ℤ) : (0 : ℚ) < 2 ^ e := zpow_pos (by norm_num) e

theorem roundMag_nonneg {x : ℚ} (h : 0 ≤ x) : 0 ≤ roundMag x := by
  unfold roundMag
  have h1 : (0 : ℚ) ≤ x / 2 ^ ulpExp x := div_nonneg h (two_zpow_pos _).le
  have h2 : (0 : ℚ) ≤ (roundHalfEven (x / 2 ^ ulpExp x) : ℚ) := by
    exact_mod_cast roundHalfEven_nonneg h1
  exact mul_nonneg h2 (two_zpow_pos _).le

theorem roundMag_zero : roundMag 0 = 0 := by
  simp [roundMag, roundHalfEven]

theorem ulpExp_mono {a b : ℚ} (ha : 0 < a) (h : a ≤ b) : ulpExp a ≤ ulpExp b := by
  unfold ulpExp
  have := Int.log_mono_right (b := 2) ha h
  omega

/-- Below the next power of two the rounded magnitude does not pass that power. -/
theorem roundMag_le_pow (a : ℚ) : roundMag a ≤ 2 ^ (ulpExp a + 24) := by
  have hlt : a < 2 ^ (Int.log 2 a + 1) := by
    simpa using Int.lt_zpow_succ_log_self (b := 2) (by norm_num) a
  have hle : (2 : ℚ) ^ (Int.log 2 a + 1) ≤ 2 ^ (ulpExp a + 24) := by
    apply zpow_le_zpow_right₀ (by norm_num)
    unfold ulpExp
    omega
  have hq : a / 2 ^ ulpExp a ≤ ((2 ^ 24 : ℤ) : ℚ) := by
    rw [div_le_iff₀ (two_zpow_pos _)]
    have : ((2 ^ 24 : ℤ) : ℚ) * 2 ^ ulpExp a = 2 ^ (ulpExp a + 24) := by
      rw [zpow_add₀ (by norm_num : (2 : ℚ) ≠ 0)]
      norm_num
      ring
    rw [this]
    exact (hlt.trans_le hle).le
  have hr := roundHalfEven_mono hq
  rw [roundHalfEven_intCast] at hr
  unfold roundMag
  have : (2 : ℚ) ^ (ulpExp a + 24) = ((2 ^ 24 : ℤ) : ℚ) * 2 ^ ulpExp a := by
    rw [zpow_add₀ (by norm_num : (2 : ℚ) ≠ 0)]
    norm_num
    ring
  rw [this]
  apply mul_le_mul_of_nonneg_right _ (two_zpow_pos _).le
  exact_mod_cast hr

/-- In a normal binade the rounded magnitude is at least the power of two below. -/
theorem pow_le_roundMag {b : ℚ} (hb : 0 < b) (hn : -126 ≤ Int.log 2 b) :
    2 ^ (ulpExp b + 23) ≤ roundMag b := by
  have he : ulpExp b + 23 = Int.log 2 b := by
    unfold ulpExp
    omega
  have hle : (2 : ℚ) ^ (ulpExp b + 23) ≤ b := by
    rw [he]
    simpa using Int.zpow_log_le_self (b := 2) (by norm_num) hb
  have hpow : (2 : ℚ) ^ (ulpExp b + 23) = ((2 ^ 23 : ℤ) : ℚ) * 2 ^ ulpExp b := by
    rw [zpow_add₀ (by norm_num : (2 : ℚ) ≠ 0)]
    norm_num
    ring
  have hq : ((2 ^ 23 : ℤ) : ℚ) ≤ b / 2 ^ ulpExp b := by
    rw [le_div_iff₀ (two_zpow_pos _), ← hpow]
    exact hle
  have hr := roundHalfEven_mono hq
  rw [roundHalfEven_intCast] at hr
  unfold roundMag
  rw [hpow]
  apply mul_le_mul_of_nonneg_right _ (two_zpow_pos _).le
  exact_mod_cast hr

theorem roundMag_mono {a b : ℚ} (ha : 0 ≤ a) (h : a ≤ b) : roundMag a ≤ roundMag b := by
  rcases eq_or_lt_of_le ha with h0 | hpos
  · rw [← h0, roundMag_zero]
    exact roundMag_nonneg (ha.trans h)
  · have hb : 0 < b := hpos.trans_le h
    have he := ulpExp_mono hpos h
    rcases eq_or_lt_of_le he with heq | hlt
    · unfold roundMag
      rw [heq]
      apply mul_le_mul_of_nonneg_right _ (two_zpow_pos _).le
      have : a / 2 ^ ulpExp b ≤ b / 2 ^ ulpExp b :=
        div_le_div_of_nonneg_right h (two_zpow_pos _).le
      exact_mod_cast roundHalfEven_mono this
    · have hn : -126 ≤ Int.log 2 b := by
        unfold ulpExp at hlt
        omega
      calc roundMag a ≤ 2 ^ (ulpExp a + 24) := roundMag_le_pow a
        _ ≤ 2 ^ (ulpExp b + 23) := by
          apply zpow_le_zpow_right₀ (by norm_num)
          omega
        _ ≤ roundMag b := pow_le_roundMag hb hn

theorem roundBinary32_mono {a b : ℚ} (h : a ≤ b) :
    FP.le (roundBinary32 a) (roundBinary32 b) := by
  unfold roundBinary32
  by_cases ha : a < 0
  · by_cases hb : b < 0
    · have hm : roundMag (-b) ≤ roundMag (-a) := roundMag_mono (by linarith) (by linarith)
      simp only [ha, hb, if_true]
      split_ifs <;> simp only [FP.le] <;> linarith
    · have h1 : 0 ≤ roundMag (-a) := roundMag_nonneg (by linarith)
      have h2 : 0 ≤ roundMag b := roundMag_nonneg (by linarith)
      simp only [ha, hb, if_true, if_false]
      split_ifs <;> simp only [FP.le]
      linarith
  · have hb : ¬ b < 0 := by linarith
    have hm : roundMag a ≤ roundMag b := roundMag_mono (by linarith) h
    simp only [ha, hb, if_false]
    split_ifs <;> simp only [FP.le] <;> linarith

theorem roundBinary32_ne_nan (x : ℚ) : roundBinary32 x ≠ .nan := by
  unfold roundBinary32
  split_ifs <;> simp

theorem FP.negInf_le {x : FP} (h : x ≠ .nan) : FP.le .negInf x := by
  cases x <;> simp_all [FP.le]

theorem FP.le_posInf {x : FP} (h : x ≠ .nan) : FP.le x .posInf := by
  cases x <;> simp_all [FP.le]

theorem floatOfDouble_mono {t1 t2 : FP} (h : FP.lt t1 t2) :
    FP.le (floatOfDouble t1) (floatOfDouble t2) := by
  cases t1 with
  | nan => simp [FP.lt] at h
  | posInf => cases t2 <;> simp [FP.lt] at h
  | negInf =>
    cases t2 with
    | nan => simp [FP.lt] at h
    | negInf => simp [FP.lt] at h
    | posInf => simp [floatOfDouble, FP.le]
    | finite b => exact FP.negInf_le (roundBinary32_ne_nan b)
  | finite a =>
    cases t2 with
    | nan => simp [FP.lt] at h
    | negInf => simp [FP.lt] at h
    | posInf => exact FP.le_posInf (roundBinary32_ne_nan a)
    | finite b =>
      have hab : a < b := by simpa [FP.lt] using h
      exact roundBinary32_mono hab.le

/-- C9: the value `render` uploads as rotation is `rotationAngle` of the time that
`glfwGetTime` returned, whatever the state and the other inputs of the tick; that value is
the time narrowed from `double` to `float`; and it is non-decreasing in the time: for
times `t1 < t2` the angle at `t1` is `<=` the angle at `t2` (IEEE comparisons), equal
times giving equal angles. -/
theorem rotationAngle_monotone_in_time (t1 t2 : FP) (inp : TickInput) (w : World) :
    uploadedValues (newCalls w (render inp w)) = [rotationAngle inp.time]
    ∧ rotationAngle t1 = floatOfDouble t1
    ∧ (FP.lt t1 t2 → FP.le (rotationAngle t1) (rotationAngle t2))
    ∧ (t1 = t2 → rotationAngle t1 = rotationAngle t2) := by
  refine ⟨?_, rfl, floatOfDouble_mono, fun h => by rw [h]⟩
  rw [newCalls_of_trace (render_trace inp w)]
  simp [uploadedValues]

/-- One second before two seconds: the angle does not decrease. -/
theorem rotationAngle_monotone_in_time_witness :
    FP.lt (.finite 1) (.finite 2)
    ∧ FP.le (rotationAngle (.finite 1)) (rotationAngle (.finite 2)) :=
  ⟨by simp [FP.lt],
   (rotationAngle_monotone_in_time (.finite 1) (.finite 2) sampleIdleTick World.start).2.2.1
     (by simp [FP.lt])⟩

end SimpleShape
